import Mathlib

/-!
Verification of `src/backend/scripts/gitingest_wrapper.py`.

The script is a CLI shim: it reads one repository URL from `sys.argv`,
calls the external `gitingest.ingest` capability, truncates the returned
content to 50,000 characters, and prints exactly one JSON result record
to standard output, setting the process exit status.

We embed `main` as a pure function `runMain` over the full argument
vector `argv` (so `argv.length < 2` is the script's
`len(sys.argv) < 2` check, and `argv[1]` is the repository URL) and an
opaque ingest capability `cap : String → IngestOutcome`.  The emitted
record is modelled as the Python dict in insertion order, as built on
lines 15-18, 34-39, 44-47 and 51-54 of the script; the second component
of the result is the process exit status.

Python semantics that matter to the embedding:
* `except ImportError` (line 43) catches the failed import of the
  capability; we model that as the `IngestOutcome.unavailable` case.
* Any other exception `e` raised while ingesting (line 50) is reported
  as `str(e)`; we model that as `IngestOutcome.raises msg`.
* Each of the three returned artifacts may be a string or `None`, hence
  `Option String`.
* `x or ""` on an optional string yields `""` when `x` is `None` or
  empty, else `x`.
* When `content` is `None`, line 31 evaluates `len(content)`, which in
  CPython raises `TypeError("object of type \x27NoneType\x27 has no len()")`;
  this is caught by the generic handler on line 50, so the script emits
  a FAILURE record in that case — it never reaches the `content or ""`
  substitution on line 38.
-/

namespace GitingestWrapper

/-- A JSON-serializable value as used by the script (only booleans and
strings occur in its records). -/
inductive PyVal where
  | boolVal (b : Bool)
  | strVal (s : String)
deriving DecidableEq

/-- The result record: the Python dict, as a key/value list in insertion
order.  It is serialized once to standard output and never mutated. -/
abbrev Record := List (String × PyVal)

/-- Outcome of `from gitingest import ingest; ingest(repo_url)`:
the import may fail (`unavailable`, line 43), the call may raise an
exception whose `str` is `msg` (`raises`, line 50), or it returns the
triple `(summary, tree, content)`, each a string or `None`. -/
inductive IngestOutcome where
  | unavailable
  | raises (msg : String)
  | returns (summary tree content : Option String)

/-- Line 30: `max_content_size = 50000`. -/
def maxContentSize : Nat := 50000

/-- Line 32: the literal truncation marker. -/
def truncMarker : String := "\n\n... [Content truncated for size]"

/-- Line 17: error text for a missing argument. -/
def usageMsg : String := "No repository URL provided"

/-- Line 46: error text when the gitingest dependency is not installed. -/
def depMissingMsg : String := "gitingest package not installed. Run: pip install gitingest"

/-- The message of the `TypeError` CPython raises for `len(None)`
(line 31 with `content = None`), as reported by `str(e)` on line 53. -/
def noneLenMsg : String := "object of type \x27NoneType\x27 has no len()"

/-- Python `x or ""` for an optional string `x` (lines 36-37):
`None` and the empty string are falsy. -/
def orEmptyOpt : Option String → String
  | none => ""
  | some s => if s = "" then "" else s

/-- Python `x or ""` for a string `x` (line 38, reached only when
`content` is a string). -/
def orEmptyStr (s : String) : String :=
  if s = "" then "" else s

/-- Lines 31-32: if the content exceeds `maxContentSize` characters,
keep the first `maxContentSize` characters and append `truncMarker`;
otherwise pass it through unchanged. -/
def truncateContent (c : String) : String :=
  if c.length > maxContentSize then c.take maxContentSize ++ truncMarker else c

/-- The failure-shaped record `{"success": false, "error": e}`
(lines 15-18, 44-47, 51-54). -/
def mkFailure (e : String) : Record :=
  [("success", PyVal.boolVal false), ("error", PyVal.strVal e)]

/-- The success-shaped record
`{"success": true, "summary": s, "tree": t, "content": c}`
(lines 34-39), in the dict insertion order of the script. -/
def mkSuccess (summary tree content : String) : Record :=
  [("success", PyVal.boolVal true), ("summary", PyVal.strVal summary),
   ("tree", PyVal.strVal tree), ("content", PyVal.strVal content)]

/-- The body of the `try` block and its two handlers (lines 23-55),
given the repository URL and the ingest capability. -/
def ingestBody (url : String) (cap : String → IngestOutcome) : Record × Nat :=
  match cap url with
  | IngestOutcome.unavailable => (mkFailure depMissingMsg, 1)
  | IngestOutcome.raises msg => (mkFailure msg, 1)
  | IngestOutcome.returns summary tree content =>
    match content with
    | none => (mkFailure noneLenMsg, 1)
    | some c =>
      (mkSuccess (orEmptyOpt summary) (orEmptyOpt tree) (orEmptyStr (truncateContent c)), 0)

/-- `main()` (lines 13-55): the emitted record and the process exit
status, as a function of the full argument vector (`argv.getD 0` is the
program name) and the ingest capability. -/
def runMain (argv : List String) (cap : String → IngestOutcome) : Record × Nat :=
  if argv.length < 2 then
    (mkFailure usageMsg, 1)
  else
    ingestBody (argv.getD 1 "") cap

/-- A record has the success shape when it is `mkSuccess` of some three
artifact strings. -/
def isSuccessShape (r : Record) : Prop :=
  ∃ s t c, r = mkSuccess s t c

/-- A record has the failure shape when it is `mkFailure` of some error
string. -/
def isFailureShape (r : Record) : Prop :=
  ∃ e, r = mkFailure e

/- Concrete ingest capabilities and inputs used by witnesses and
counterexamples. -/

/-- A capability that raises an exception with a descriptive message. -/
def capRaises : String → IngestOutcome :=
  fun _ => IngestOutcome.raises "Repository not found"

/-- A capability whose import fails. -/
def capUnavailable : String → IngestOutcome :=
  fun _ => IngestOutcome.unavailable

/-- A capability returning `None` for all three artifacts. -/
def capAllNull : String → IngestOutcome :=
  fun _ => IngestOutcome.returns none none none

/-- A capability returning strings for summary and tree but `None` for
the content. -/
def capNullContent : String → IngestOutcome :=
  fun _ => IngestOutcome.returns (some "summary") (some "tree") none

/-- A capability returning `None` summary and tree with a short string
content. -/
def capNullMeta : String → IngestOutcome :=
  fun _ => IngestOutcome.returns none none (some "body")

/-- A capability returning three short strings. -/
def capSmall : String → IngestOutcome :=
  fun _ => IngestOutcome.returns (some "A sample repo") (some "tree") (some "hello world")

/-- A content string of 50,001 characters, one over the limit. -/
def bigContent : String :=
  String.mk (List.replicate 50001 'a')

/-- A capability returning `bigContent` as the content artifact. -/
def capBig : String → IngestOutcome :=
  fun _ => IngestOutcome.returns (some "s") (some "t") (some bigContent)

/- Helper lemmas. -/

/-- A string equals the length of its underlying character list. -/
theorem string_length_eq_data (s : String) : s.length = s.data.length := by
  cases s
  rfl

/-- `String.take` keeps `min n length` characters. -/
theorem string_length_take (s : String) (n : Nat) :
    (s.take n).length = min n s.length := by
  rw [string_length_eq_data, string_length_eq_data, String.data_take, List.length_take]

/-- Python `s or ""` is the identity on strings. -/
theorem orEmptyStr_eq (s : String) : orEmptyStr s = s := by
  unfold orEmptyStr
  split
  · rename_i h
    exact h.symm
  · rfl

/-- With a program name and at least one argument, `main` runs the
`try` body on the first argument. -/
theorem runMain_cons (prog url : String) (rest : List String)
    (cap : String → IngestOutcome) :
    runMain (prog :: url :: rest) cap = ingestBody url cap := rfl

/-- The length of `bigContent`. -/
theorem bigContent_length : bigContent.length = 50001 := by
  unfold bigContent
  rw [String.length_mk, List.length_replicate]

/-- A failure-shaped record is never success-shaped: the two dicts have
different lengths. -/
theorem failure_not_success_shape (e : String) : ¬ isSuccessShape (mkFailure e) := by
  rintro ⟨s, t, c, h⟩
  have hlen := congrArg List.length h
  simp [mkFailure, mkSuccess] at hlen

/-- A success-shaped record is never failure-shaped. -/
theorem success_not_failure_shape (s t c : String) : ¬ isFailureShape (mkSuccess s t c) := by
  rintro ⟨e, h⟩
  have hlen := congrArg List.length h
  simp [mkFailure, mkSuccess] at hlen

/- Claim theorems. -/

/-- Claim C1: when ingestion succeeds and the content has more than
50,000 characters, the success record carries the first 50,000
characters followed by the exact truncation marker, and its length is
exactly 50,000 plus the marker length. -/
theorem content_truncated_over_limit (prog url : String) (rest : List String)
    (cap : String → IngestOutcome) (summary tree : Option String) (c : String)
    (hcap : cap url = IngestOutcome.returns summary tree (some c))
    (hlen : c.length > maxContentSize) :
    runMain (prog :: url :: rest) cap =
      (mkSuccess (orEmptyOpt summary) (orEmptyOpt tree)
        (c.take maxContentSize ++ truncMarker), 0) ∧
    (c.take maxContentSize ++ truncMarker).length = maxContentSize + truncMarker.length := by
  constructor
  · rw [runMain_cons]
    simp only [ingestBody, hcap]
    rw [orEmptyStr_eq, truncateContent, if_pos hlen]
  · rw [String.length_append, string_length_take, Nat.min_eq_left (Nat.le_of_lt hlen)]

/-- Witness for C1 at a 50,001-character content. -/
theorem content_truncated_over_limit_witness :
    capBig "url" = IngestOutcome.returns (some "s") (some "t") (some bigContent) ∧
    bigContent.length > maxContentSize ∧
    (runMain ["prog", "url"] capBig =
      (mkSuccess (orEmptyOpt (some "s")) (orEmptyOpt (some "t"))
        (bigContent.take maxContentSize ++ truncMarker), 0) ∧
     (bigContent.take maxContentSize ++ truncMarker).length =
       maxContentSize + truncMarker.length) := by
  have h : bigContent.length > maxContentSize := by
    rw [bigContent_length]
    decide
  exact ⟨rfl, h,
    content_truncated_over_limit "prog" "url" [] capBig (some "s") (some "t") bigContent rfl h⟩

/-- Claim C2: when the ingest capability raises a failure with message
`m`, the program emits a failure record whose error field is exactly
`m` and exits with status 1. -/
theorem ingest_error_propagated (prog url : String) (rest : List String)
    (cap : String → IngestOutcome) (m : String)
    (hcap : cap url = IngestOutcome.raises m) :
    runMain (prog :: url :: rest) cap = (mkFailure m, 1) := by
  rw [runMain_cons]
  simp only [ingestBody, hcap]

/-- Witness for C2. -/
theorem ingest_error_propagated_witness :
    capRaises "url" = IngestOutcome.raises "Repository not found" ∧
    runMain ["prog", "url"] capRaises = (mkFailure "Repository not found", 1) :=
  ⟨rfl, ingest_error_propagated "prog" "url" [] capRaises "Repository not found" rfl⟩

/-- Counterexample to claim C3 as stated: when the capability returns
`None` for all three artifacts, the program does NOT emit a success
record with empty-string fields; `len(None)` on line 31 raises a
`TypeError` that the generic handler turns into a failure record with
exit status 1. -/
theorem null_content_not_substituted_cex :
    runMain ["prog", "url"] capAllNull = (mkFailure noneLenMsg, 1) ∧
    runMain ["prog", "url"] capAllNull ≠ (mkSuccess "" "" "", 0) := by
  constructor
  · rfl
  · decide

/-- Claim C3 (amended): when ingestion succeeds with a non-null
content, a `None` summary or tree is substituted with the empty string
in the success record (a `None` content instead produces a failure
record, per the counterexample). -/
theorem null_summary_tree_substituted (prog url : String) (rest : List String)
    (cap : String → IngestOutcome) (summary tree : Option String) (c : String)
    (hcap : cap url = IngestOutcome.returns summary tree (some c)) :
    runMain (prog :: url :: rest) cap =
      (mkSuccess (orEmptyOpt summary) (orEmptyOpt tree) (truncateContent c), 0) ∧
    orEmptyOpt none = "" := by
  constructor
  · rw [runMain_cons]
    simp only [ingestBody, hcap]
    rw [orEmptyStr_eq]
  · rfl

/-- Witness for the amended C3, with `None` summary and tree. -/
theorem null_summary_tree_substituted_witness :
    capNullMeta "url" = IngestOutcome.returns none none (some "body") ∧
    (runMain ["prog", "url"] capNullMeta =
      (mkSuccess (orEmptyOpt none) (orEmptyOpt none) (truncateContent "body"), 0) ∧
     orEmptyOpt none = "") :=
  ⟨rfl, null_summary_tree_substituted "prog" "url" [] capNullMeta none none "body" rfl⟩

/-- Claim C4: for every invocation, the emitted record has exactly one
of the two shapes: success (`success=true` with summary, tree and
content, no error field) or failure (`success=false` with an error
field, none of the artifact fields); never both, never neither. -/
theorem result_record_shape_invariant (argv : List String)
    (cap : String → IngestOutcome) :
    (isSuccessShape (runMain argv cap).1 ∧ ¬ isFailureShape (runMain argv cap).1) ∨
    (isFailureShape (runMain argv cap).1 ∧ ¬ isSuccessShape (runMain argv cap).1) := by
  unfold runMain
  split
  · exact Or.inr ⟨⟨usageMsg, rfl⟩, failure_not_success_shape usageMsg⟩
  · unfold ingestBody
    cases hcap : cap (argv.getD 1 "") with
    | unavailable =>
      exact Or.inr ⟨⟨depMissingMsg, rfl⟩, failure_not_success_shape depMissingMsg⟩
    | raises m =>
      exact Or.inr ⟨⟨m, rfl⟩, failure_not_success_shape m⟩
    | returns s t c =>
      cases c with
      | none =>
        exact Or.inr ⟨⟨noneLenMsg, rfl⟩, failure_not_success_shape noneLenMsg⟩
      | some cc =>
        exact Or.inl ⟨⟨orEmptyOpt s, orEmptyOpt t, orEmptyStr (truncateContent cc), rfl⟩,
          success_not_failure_shape _ _ _⟩

/-- Claim C5: with no repository argument (argument vector shorter than
two entries), the program emits the usage failure record and exits with
status 1. -/
theorem no_args_usage_error (argv : List String) (cap : String → IngestOutcome)
    (h : argv.length < 2) :
    runMain argv cap = (mkFailure usageMsg, 1) := by
  unfold runMain
  rw [if_pos h]

/-- Witness for C5 at an argument vector holding only the program name. -/
theorem no_args_usage_error_witness :
    (["prog"] : List String).length < 2 ∧
    runMain ["prog"] capSmall = (mkFailure usageMsg, 1) :=
  ⟨by decide, no_args_usage_error ["prog"] capSmall (by decide)⟩

/-- Claim C6: when the ingest capability is unavailable, the program
emits a failure record whose error text names the missing dependency
(`gitingest`) and the remedy (`pip install gitingest`), and exits with
status 1. -/
theorem dependency_missing_error (prog url : String) (rest : List String)
    (cap : String → IngestOutcome)
    (hcap : cap url = IngestOutcome.unavailable) :
    runMain (prog :: url :: rest) cap = (mkFailure depMissingMsg, 1) ∧
    depMissingMsg = "gitingest package not installed. Run: pip install gitingest" := by
  constructor
  · rw [runMain_cons]
    simp only [ingestBody, hcap]
  · rfl

/-- Witness for C6. -/
theorem dependency_missing_error_witness :
    capUnavailable "url" = IngestOutcome.unavailable ∧
    (runMain ["prog", "url"] capUnavailable = (mkFailure depMissingMsg, 1) ∧
     depMissingMsg = "gitingest package not installed. Run: pip install gitingest") :=
  ⟨rfl, dependency_missing_error "prog" "url" [] capUnavailable rfl⟩

/-- Claim C7: when ingestion succeeds and the content has at most
50,000 characters, the success record carries the content unchanged,
with no truncation marker appended. -/
theorem content_within_limit_unchanged (prog url : String) (rest : List String)
    (cap : String → IngestOutcome) (summary tree : Option String) (c : String)
    (hcap : cap url = IngestOutcome.returns summary tree (some c))
    (hlen : c.length ≤ maxContentSize) :
    runMain (prog :: url :: rest) cap =
      (mkSuccess (orEmptyOpt summary) (orEmptyOpt tree) c, 0) := by
  rw [runMain_cons]
  simp only [ingestBody, hcap]
  rw [orEmptyStr_eq, truncateContent, if_neg (Nat.not_lt.mpr hlen)]

/-- Witness for C7 at an 11-character content. -/
theorem content_within_limit_unchanged_witness :
    capSmall "url" = IngestOutcome.returns (some "A sample repo") (some "tree")
      (some "hello world") ∧
    ("hello world" : String).length ≤ maxContentSize ∧
    runMain ["prog", "url"] capSmall =
      (mkSuccess (orEmptyOpt (some "A sample repo")) (orEmptyOpt (some "tree"))
        "hello world", 0) :=
  ⟨rfl, by decide,
    content_within_limit_unchanged "prog" "url" [] capSmall (some "A sample repo")
      (some "tree") "hello world" rfl (by decide)⟩

/-- Claim C8: the program is deterministic: two invocations with the
same argument vector and pointwise-equal ingest capabilities produce
identical records and exit statuses (hence byte-identical serialized
output). -/
theorem deterministic_output (argv argv2 : List String)
    (cap cap2 : String → IngestOutcome)
    (hargs : argv = argv2) (hcap : ∀ u, cap u = cap2 u) :
    runMain argv cap = runMain argv2 cap2 := by
  subst hargs
  rw [funext hcap]

/-- Witness for C8. -/
theorem deterministic_output_witness :
    runMain ["prog", "url"] capSmall = runMain ["prog", "url"] capSmall :=
  deterministic_output ["prog", "url"] ["prog", "url"] capSmall capSmall rfl (fun _ => rfl)

/-- Counterexample to claim C9 as stated: the ingest call can return
without raising (with a `None` content artifact) and the program still
emits a failure record and exits with status 1, because `len(None)` on
line 31 raises inside the wrapper. -/
theorem null_content_failure_cex :
    runMain ["prog", "url"] capNullContent = (mkFailure noneLenMsg, 1) ∧
    (runMain ["prog", "url"] capNullContent).2 ≠ 0 := by
  constructor
  · rfl
  · decide

/-- Claim C9 (amended): when ingestion succeeds AND the returned
content is not null, the program emits a success record with
`success=true` carrying the three artifacts and exits with status 0. -/
theorem success_record_exit_zero (prog url : String) (rest : List String)
    (cap : String → IngestOutcome) (summary tree : Option String) (c : String)
    (hcap : cap url = IngestOutcome.returns summary tree (some c)) :
    (runMain (prog :: url :: rest) cap).1 =
      mkSuccess (orEmptyOpt summary) (orEmptyOpt tree) (truncateContent c) ∧
    (runMain (prog :: url :: rest) cap).2 = 0 := by
  rw [runMain_cons]
  simp [ingestBody, hcap, orEmptyStr_eq]

/-- Witness for the amended C9. -/
theorem success_record_exit_zero_witness :
    capSmall "url" = IngestOutcome.returns (some "A sample repo") (some "tree")
      (some "hello world") ∧
    ((runMain ["prog", "url"] capSmall).1 =
      mkSuccess (orEmptyOpt (some "A sample repo")) (orEmptyOpt (some "tree"))
        (truncateContent "hello world") ∧
     (runMain ["prog", "url"] capSmall).2 = 0) :=
  ⟨rfl, success_record_exit_zero "prog" "url" [] capSmall (some "A sample repo")
    (some "tree") "hello world" rfl⟩

/-- Claim C10: the missing-argument check runs before the capability is
consulted: with fewer than two argv entries the output is the usage
failure record for EVERY capability, in particular for the unavailable
one — the dependency-missing error can never mask the usage error. -/
theorem usage_check_precedes_import (argv : List String)
    (cap : String → IngestOutcome) (h : argv.length < 2) :
    runMain argv cap = (mkFailure usageMsg, 1) ∧
    runMain argv (fun _ => IngestOutcome.unavailable) = (mkFailure usageMsg, 1) := by
  constructor
  · unfold runMain
    rw [if_pos h]
  · unfold runMain
    rw [if_pos h]

/-- Witness for C10, with the unavailable capability itself. -/
theorem usage_check_precedes_import_witness :
    (["prog"] : List String).length < 2 ∧
    (runMain ["prog"] capUnavailable = (mkFailure usageMsg, 1) ∧
     runMain ["prog"] (fun _ => IngestOutcome.unavailable) = (mkFailure usageMsg, 1)) :=
  ⟨by decide, usage_check_precedes_import ["prog"] capUnavailable (by decide)⟩

end GitingestWrapper
